import Mathlib

/-!
Verification of the weather dashboard (`src/WeatherApp.jsx`).

Shallow embedding conventions:
* Hourly timestamps appear in the source as ISO strings that are immediately
  parsed to epoch milliseconds (`Date.parse`) before every comparison; we model
  each hourly time entry directly by its parsed value, an `Int`.
* Daily dates, sunrise and sunset values are kept by the source verbatim as
  strings; we model them as `String`.
* Numeric weather fields (temperatures, humidity, WMO codes, ...) are only
  moved around, never computed with, so JavaScript numbers are modelled as `ℚ`.
* A per-field array may be absent or shorter than the time array; the source
  reads `field?.[i]`, which we model as `List.get?` returning `Option`.
-/

namespace WeatherApp

/-- Hourly series of the forecast response: parallel per-field arrays keyed by
the `time` array, exactly the fields requested in `fetchAll`. -/
structure HourlyRaw where
  time : List Int
  temperature_2m : List ℚ
  relative_humidity_2m : List ℚ
  dew_point_2m : List ℚ
  apparent_temperature : List ℚ
  precipitation_probability : List ℚ
  precipitation : List ℚ
  rain : List ℚ
  showers : List ℚ
  wind_direction_10m : List ℚ
  temperature_120m : List ℚ
  soil_moisture_27_to_81cm : List ℚ
  wind_speed_10m : List ℚ
  weather_code : List ℚ
deriving DecidableEq

/-- One element pushed by the `hourlyBlocks` loop. -/
structure HourBlock where
  time : Int
  temp : Option ℚ
  rh : Option ℚ
  app : Option ℚ
  pop : Option ℚ
  prcp : Option ℚ
  rain : Option ℚ
  showers : Option ℚ
  wdir : Option ℚ
  ws : Option ℚ
  wmo : Option ℚ
deriving DecidableEq

/-- The object literal pushed at index `p.1` with parsed time `p.2`. -/
def mkHour (h : HourlyRaw) (p : Nat × Int) : HourBlock :=
  { time := p.2
    temp := h.temperature_2m.get? p.1
    rh := h.relative_humidity_2m.get? p.1
    app := h.apparent_temperature.get? p.1
    pop := h.precipitation_probability.get? p.1
    prcp := h.precipitation.get? p.1
    rain := h.rain.get? p.1
    showers := h.showers.get? p.1
    wdir := h.wind_direction_10m.get? p.1
    ws := h.wind_speed_10m.get? p.1
    wmo := h.weather_code.get? p.1 }

/-- The `for` loop of `hourlyBlocks`: walk the (index, parsed-time) pairs in
order, appending a block whenever `tMs >= now && arr.length < 24`. -/
def hourlyLoop (h : HourlyRaw) (now : Int) :
    List (Nat × Int) → List HourBlock → List HourBlock
  | [], arr => arr
  | p :: rest, arr =>
      hourlyLoop h now rest
        (if now ≤ p.2 ∧ arr.length < 24 then arr ++ [mkHour h p] else arr)

/-- Embedding of `hourlyBlocks`: empty when the time array is empty,
otherwise the capped forward-looking scan. -/
def hourlyBlocks (h : HourlyRaw) (now : Int) : List HourBlock :=
  if h.time.length = 0 then [] else hourlyLoop h now h.time.enum []

/-- Daily series of the forecast response. -/
structure DailyRaw where
  time : List String
  temperature_2m_min : List ℚ
  temperature_2m_max : List ℚ
  sunrise : List String
  sunset : List String
  weather_code : List ℚ
deriving DecidableEq

/-- One element pushed by the `dailyGroups` loop. -/
structure DayGroup where
  date : String
  min : Option ℚ
  max : Option ℚ
  sunrise : Option String
  sunset : Option String
  wmo : Option ℚ
deriving DecidableEq

/-- The object literal pushed at index `p.1` with date `p.2`. -/
def mkDay (d : DailyRaw) (p : Nat × String) : DayGroup :=
  { date := p.2
    min := d.temperature_2m_min.get? p.1
    max := d.temperature_2m_max.get? p.1
    sunrise := d.sunrise.get? p.1
    sunset := d.sunset.get? p.1
    wmo := d.weather_code.get? p.1 }

/-- Embedding of `dailyGroups`: the loop runs `i` from `0` to
`min 5 time.length`, pushing the record built at index `i`. -/
def dailyGroups (d : DailyRaw) : List DayGroup :=
  if d.time.length = 0 then [] else (d.time.enum.take 5).map (mkDay d)

/-- The history update inside `onSearchCity`:
`[tag, ...h.filter((x) => x !== tag)].slice(0, 8)`. -/
def record (tag : String) (h : List String) : List String :=
  (tag :: h.filter (fun x => decide (x ≠ tag))).take 8

/-- The persisted-blob read: `none` models a missing key, `some (.error ())`
models a blob on which `JSON.parse` throws (the `catch` branch), and
`some (.ok l)` models a blob parsing to the string list `l`. The source is
`raw ? JSON.parse(raw) : []` wrapped in `try ... catch { return [] }`. -/
def loadHistory : Option (Except Unit (List String)) → List String
  | none => []
  | some (Except.error _) => []
  | some (Except.ok l) => l

/-- The write-back effect stores `JSON.stringify(history.slice(0, 8))`; the
blob a later session parses back is therefore `h.take 8`. -/
def persistedBlob (h : List String) : List String := h.take 8

/-- History states reachable by the application itself: an initial load from a
missing blob, a corrupt blob, or a blob written back by a previous reachable
session, followed by any number of `record` steps. -/
inductive HistReachable : List String → Prop
  | loadMissing : HistReachable (loadHistory none)
  | loadCorrupt : HistReachable (loadHistory (some (Except.error ())))
  | loadSaved {h : List String} :
      HistReachable h → HistReachable (loadHistory (some (Except.ok (persistedBlob h))))
  | searchRecord {h : List String} (tag : String) :
      HistReachable h → HistReachable (record tag h)

/-- The invariant claimed for the history store. -/
def histInv (h : List String) : Prop := h.length ≤ 8 ∧ h.Nodup

instance : DecidablePred histInv := fun h => by
  unfold histInv; infer_instance

/-! ## Controller model

The remaining definitions embed the event handlers of the component. Network
calls are modelled by passing each handler the outcome of the calls it makes:
`none` stands for a response with `!res.ok` (or a thrown fetch), `some data`
for a successful JSON body. Each handler returns the successor state together
with the list of requests it issued. -/

structure Coords where
  lat : ℚ
  lon : ℚ
deriving DecidableEq

/-- The `place` object set by a successful `resolveCity`. -/
structure Place where
  name : String
  country : String
deriving DecidableEq

/-- Value stored in `place`: `setPlace` receives a `{name, country}` object from the search flow but a
bare display string from `reverseGeo`. -/
inductive PlaceVal
  | named (p : Place)
  | plain (s : String)
deriving DecidableEq

inductive Units
  | metric
  | imperial
deriving DecidableEq

/-- One result object of a geocoding (forward or reverse) response. -/
structure GeoResult where
  latitude : ℚ
  longitude : ℚ
  name : String
  country_code : Option String
  country : Option String
  admin1 : Option String
deriving DecidableEq

structure GeoData where
  results : List GeoResult
deriving DecidableEq

/-- The `current` object of a forecast response (fields may be omitted). -/
structure CurrentW where
  temperature_2m : Option ℚ
  relative_humidity_2m : Option ℚ
  apparent_temperature : Option ℚ
  precipitation : Option ℚ
  precipitation_probability : Option ℚ
  rain : Option ℚ
  showers : Option ℚ
  wind_speed_10m : Option ℚ
  wind_direction_10m : Option ℚ
  weather_code : Option ℚ
deriving DecidableEq

/-- Body of a successful forecast fetch. -/
structure ForecastData where
  current : CurrentW
  hourly : HourlyRaw
  daily : DailyRaw
deriving DecidableEq

/-- JavaScript `String.prototype.trim()`: strip leading and trailing
whitespace. Written over the character list so that it evaluates by kernel
reduction (Lean's own `String.trim` is defined by well-founded recursion and
does not). -/
def jsTrim (s : String) : String :=
  ⟨((s.data.dropWhile Char.isWhitespace).reverse.dropWhile Char.isWhitespace).reverse⟩

/-- JavaScript truthiness of an optional string: `undefined` and `""` are
falsy, so `a || b` skips both. -/
def truthy : Option String → Option String
  | none => none
  | some s => if s = "" then none else some s

/-- Country fallback `r.country_code || r.country || ""`. -/
def countryOf (r : GeoResult) : String :=
  ((truthy r.country_code).or (truthy r.country)).getD ("")

/-- Display name rule `state ? name + ", " + state : name` with `state = r.admin1`. -/
def displayNameOf (r : GeoResult) : String :=
  match truthy r.admin1 with
  | some st => r.name ++ ", " ++ st
  | none => r.name

def couldNotFindMsg : String := "Could not find the location."

def failedFetchMsg : String := "Failed to fetch weather data."

def gpsPermissionMsg : String := "Unable to access your location (check GPS permissions)."

/-- Embedding of `resolveCity`: throws on a non-success response or an empty result list,
otherwise uses only the first match. -/
def resolveCity (resp : Option GeoData) : Except String (Coords × Place) :=
  match resp with
  | none => Except.error couldNotFindMsg
  | some data =>
    match data.results with
    | [] => Except.error couldNotFindMsg
    | r :: _ =>
      Except.ok (⟨r.latitude, r.longitude⟩, ⟨displayNameOf r, countryOf r⟩)

/-- Embedding of `reverseGeo`: its own `try/catch` turns a failed call or an empty result
list into `null`; otherwise it returns the display string
`name(, state), country`. -/
def reverseGeo (resp : Option GeoData) : Option String :=
  match resp with
  | none => none
  | some data =>
    match data.results with
    | [] => none
    | r :: _ =>
      some (match truthy r.admin1 with
        | some st => r.name ++ ", " ++ st ++ ", " ++ countryOf r
        | none => r.name ++ ", " ++ countryOf r)

/-- The unit-dependent query parameters of `fetchAll`:
`temperature_unit` and `windspeed_unit`. -/
def unitParams : Units → String × String
  | Units.metric => ("celsius", "ms")
  | Units.imperial => ("fahrenheit", "mph")

/-- A network request issued by a handler. -/
inductive Request
  | geocode (q : String)
  | reverse (lat lon : ℚ)
  | forecast (lat lon : ℚ) (temperature_unit windspeed_unit : String)
deriving DecidableEq

/-- The forecast request `fetchAll` issues for `c` under `u`. -/
def mkForecastReq (c : Coords) (u : Units) : Request :=
  Request.forecast c.lat c.lon (unitParams u).1 (unitParams u).2

/-- The React state of the component that the handlers touch. -/
structure AppState where
  cityInput : String
  coords : Option Coords
  place : Option PlaceVal
  units : Units
  loading : Bool
  error : String
  current : Option CurrentW
  forecast : Option ForecastData
  history : List String
deriving DecidableEq

/-- Embedding of `onSearchCity`, given the outcome of the geocoding call and of the
forecast call. `setError("")` runs before the empty-input guard; on a
resolution success the coordinates and place are set before the fetch, so a
failed fetch leaves them updated while `current`/`forecast` keep their old
values. -/
def onSearchCity (s : AppState) (geo : Option GeoData) (fr : Option ForecastData) :
    AppState × List Request :=
  let s0 := { s with error := "" }
  if jsTrim s0.cityInput = "" then (s0, [])
  else
    let q := jsTrim s0.cityInput
    let s1 := { s0 with loading := true }
    match resolveCity geo with
    | Except.error msg => ({ s1 with error := msg, loading := false }, [Request.geocode q])
    | Except.ok (c, p) =>
      let s2 := { s1 with coords := some c, place := some (PlaceVal.named p) }
      let req := mkForecastReq c s2.units
      match fr with
      | none =>
          ({ s2 with error := failedFetchMsg, loading := false },
           [Request.geocode q, req])
      | some all =>
          let tag := p.name ++ ", " ++ p.country
          ({ s2 with current := some all.current, forecast := some all,
                     history := record tag s2.history, loading := false },
           [Request.geocode q, req])

/-- Outcome of `navigator.geolocation.getCurrentPosition`. -/
inductive GeoPos
  | ok (lat lon : ℚ)
  | denied
deriving DecidableEq

/-- Embedding of `onUseMyLocation`, given the position outcome, the reverse-geocoding
outcome and the forecast outcome. A `null` from `reverseGeo` skips `setPlace`
and the flow continues to the fetch. -/
def onUseMyLocation (s : AppState) (pos : GeoPos) (rev : Option GeoData)
    (fr : Option ForecastData) : AppState × List Request :=
  let s0 := { s with error := "" }
  match pos with
  | GeoPos.denied => ({ s0 with loading := false, error := gpsPermissionMsg }, [])
  | GeoPos.ok lat lon =>
    let s1 := { s0 with loading := true, coords := some ⟨lat, lon⟩ }
    let s2 := match reverseGeo rev with
      | some pstr => { s1 with place := some (PlaceVal.plain pstr) }
      | none => s1
    let req := mkForecastReq ⟨lat, lon⟩ s2.units
    match fr with
    | none =>
        ({ s2 with error := failedFetchMsg, loading := false },
         [Request.reverse lat lon, req])
    | some all =>
        ({ s2 with current := some all.current, forecast := some all, loading := false },
         [Request.reverse lat lon, req])

/-- Unit toggle: `toggleUnits` flips the unit system. -/
def toggleUnits : Units → Units
  | Units.metric => Units.imperial
  | Units.imperial => Units.metric

/-- The `[units]` effect: no coordinates means no fetch; otherwise one fetch
with the current (post-toggle) units. -/
def unitsEffect (s : AppState) (fr : Option ForecastData) : AppState × List Request :=
  match s.coords with
  | none => (s, [])
  | some c =>
    let s1 := { s with loading := true }
    let req := mkForecastReq c s1.units
    match fr with
    | none => ({ s1 with error := failedFetchMsg, loading := false }, [req])
    | some all =>
        ({ s1 with current := some all.current, forecast := some all, loading := false }, [req])

/-- Clicking the unit toggle: the state change plus the effect it triggers. -/
def toggleUnitsStep (s : AppState) (fr : Option ForecastData) : AppState × List Request :=
  unitsEffect { s with units := toggleUnits s.units } fr

/-- A user action together with the network outcomes its handler consumes. -/
inductive Action
  | search (geo : Option GeoData) (fr : Option ForecastData)
  | useLoc (pos : GeoPos) (rev : Option GeoData) (fr : Option ForecastData)
  | toggleU (fr : Option ForecastData)
  | editInput (q : String)

/-- One controller step. -/
def step (s : AppState) : Action → AppState × List Request
  | Action.search g f => onSearchCity s g f
  | Action.useLoc p r f => onUseMyLocation s p r f
  | Action.toggleU f => toggleUnitsStep s f
  | Action.editInput q => ({ s with cityInput := q }, [])

/-! ## Concrete inputs used by witnesses and counterexamples -/

/-- An hourly series whose time array is out of order. -/
def hourlyUnsorted : HourlyRaw :=
  ⟨[5, 3], [], [], [], [], [], [], [], [], [], [], [], [], []⟩

/-- A small well-ordered hourly series. -/
def hourlySmall : HourlyRaw :=
  ⟨[1, 2, 3], [10, 11], [], [], [], [], [], [], [], [], [], [], [], [7, 8, 9]⟩

/-- A small daily series. -/
def dailySmall : DailyRaw :=
  ⟨["d1", "d2"], [1], [5, 6], ["r1", "r2"], ["s1"], [0, 1]⟩

/-- An empty forecast body. -/
def fdEx : ForecastData :=
  ⟨⟨none, none, none, none, none, none, none, none, none, none⟩,
   ⟨[], [], [], [], [], [], [], [], [], [], [], [], [], []⟩,
   ⟨[], [], [], [], [], []⟩⟩

/-- 21.03 as an already-reduced rational (the `Rat.mk'` form evaluates by
kernel reduction, unlike `2103 / 100`). -/
def hanoiLat : ℚ := Rat.mk' 2103 100 (by decide) (by decide)

/-- 105.85, reduced to 2117/20. -/
def hanoiLon : ℚ := Rat.mk' 2117 20 (by decide) (by decide)

/-- The single Hanoi result of the geocoding scenario. -/
def hanoiResult : GeoResult :=
  { latitude := hanoiLat, longitude := hanoiLon, name := "Hanoi",
    country_code := some ("VN"), country := none, admin1 := none }

def hanoiResp : GeoData := ⟨[hanoiResult]⟩

/-- A result carrying a region and a full country name but no country code. -/
def regionResult : GeoResult :=
  { latitude := 1, longitude := 2, name := "Hue",
    country_code := none, country := some ("Vietnam"), admin1 := some ("ThuaThien") }

/-- A blank controller state. -/
def blankState : AppState :=
  { cityInput := "", coords := none, place := none, units := Units.metric,
    loading := false, error := "", current := none, forecast := none, history := [] }

/-- The blank state about to search for Hanoi. -/
def hanoiState : AppState := { blankState with cityInput := "Hanoi" }

/-- A state with a whitespace-only query and a previously displayed error. -/
def staleErrorState : AppState :=
  { blankState with cityInput := "  ", error := "boom" }

def coordsEx : Coords := ⟨1, 2⟩

/-- The blank state after a location has been resolved. -/
def stateWithCoords : AppState := { blankState with coords := some coordsEx }

/-- A state that already displays weather data for a previous search. -/
def priorState : AppState :=
  { blankState with
      cityInput := "x"
      current := some fdEx.current
      forecast := some fdEx }

/-- A state that already displays a place name. -/
def placedState : AppState := { blankState with place := some (PlaceVal.plain ("Old")) }

/-! ## Helper lemmas -/

/-- The push of `mkHour` only uses the parsed time in the `time` field. -/
lemma mkHour_time (h : HourlyRaw) (p : Nat × Int) : (mkHour h p).time = p.2 := rfl

/-- Unrolling of the capped scan: it appends the first `24 - acc.length`
qualifying blocks to the accumulator. -/
lemma hourlyLoop_eq (h : HourlyRaw) (now : Int) :
    ∀ (l : List (Nat × Int)) (acc : List HourBlock),
      hourlyLoop h now l acc =
        acc ++ ((l.filter (fun p => decide (now ≤ p.2))).map (mkHour h)).take
          (24 - acc.length)
  | [], acc => by simp [hourlyLoop]
  | p :: rest, acc => by
    by_cases hp : now ≤ p.2
    · by_cases hlen : acc.length < 24
      · rw [hourlyLoop, if_pos ⟨hp, hlen⟩, hourlyLoop_eq h now rest]
        have h24 : 24 - acc.length = (24 - (acc ++ [mkHour h p]).length) + 1 := by
          simp only [List.length_append, List.length_cons, List.length_nil]
          omega
        rw [h24]
        simp [List.filter_cons, hp, List.take_succ_cons]
      · rw [hourlyLoop, if_neg (by simp [hlen]), hourlyLoop_eq h now rest]
        have h24 : 24 - acc.length = 0 := by omega
        simp [List.filter_cons, hp, h24]
    · rw [hourlyLoop, if_neg (by simp [hp]), hourlyLoop_eq h now rest]
      simp [List.filter_cons, hp]

/-- Filtering an enumeration by a predicate on the value and projecting the
value back gives the plain filter. -/
lemma enumFrom_filter_snd (q : Int → Bool) :
    ∀ (l : List Int) (n : Nat),
      ((l.enumFrom n).filter (fun p => q p.2)).map Prod.snd = l.filter q
  | [], _ => rfl
  | a :: l, n => by
    by_cases ha : q a
    · simp [List.enumFrom, List.filter_cons, ha, enumFrom_filter_snd q l (n + 1)]
    · simp [List.enumFrom, List.filter_cons, ha, enumFrom_filter_snd q l (n + 1)]

/-- Characterization of `hourlyBlocks`: the first 24 qualifying (index, time)
pairs, each turned into its block. -/
lemma hourlyBlocks_eq (h : HourlyRaw) (now : Int) :
    hourlyBlocks h now =
      ((h.time.enum.filter (fun p => decide (now ≤ p.2))).map (mkHour h)).take 24 := by
  unfold hourlyBlocks
  by_cases h0 : h.time.length = 0
  · rw [if_pos h0, List.length_eq_zero.mp h0]
    rfl
  · rw [if_neg h0, hourlyLoop_eq]
    simp

/-- The projected timestamps are the first 24 qualifying timestamps. -/
lemma hourlyBlocks_times (h : HourlyRaw) (now : Int) :
    (hourlyBlocks h now).map HourBlock.time =
      (h.time.filter (fun t => decide (now ≤ t))).take 24 := by
  rw [hourlyBlocks_eq, List.map_take, List.map_map]
  have hcomp : (HourBlock.time ∘ mkHour h) =
      (Prod.snd : Nat × Int → Int) := rfl
  rw [hcomp, List.enum]
  exact congrArg (List.take 24) (enumFrom_filter_snd (fun t => decide (now ≤ t)) h.time 0)

/-! ## Claims -/

/-- C1, as stated, is false: on a series whose time array is not ascending
(`[5, 3]` with `now = 0`) every entry qualifies, so the projection keeps the
original, decreasing order. -/
theorem C1_counterexample :
    ¬ List.Sorted (· ≤ ·) ((hourlyBlocks hourlyUnsorted 0).map HourBlock.time) := by
  decide

/-- C1 (amended): for every hourly series and reference time `now`, the
projected timestamps are exactly the first `min 24 k` qualifying timestamps in
series order, where `k` counts the entries with timestamp ≥ `now`; every
returned entry has timestamp ≥ `now`; the length is at most 24 and is below 24
only when fewer than 24 entries qualify; and whenever the series' time array
is non-decreasing — the order property the claim asserts unconditionally —
the projection is in non-decreasing time order. -/
theorem C1_hourly_projection (h : HourlyRaw) (now : Int) :
    (hourlyBlocks h now).map HourBlock.time
        = (h.time.filter (fun t => decide (now ≤ t))).take 24 ∧
    (∀ b ∈ hourlyBlocks h now, now ≤ b.time) ∧
    (hourlyBlocks h now).length ≤ 24 ∧
    ((hourlyBlocks h now).length < 24 →
      (h.time.filter (fun t => decide (now ≤ t))).length < 24) ∧
    (h.time.Sorted (· ≤ ·) →
      List.Sorted (· ≤ ·) ((hourlyBlocks h now).map HourBlock.time)) := by
  have htimes := hourlyBlocks_times h now
  have hlen : (hourlyBlocks h now).length =
      min 24 ((h.time.filter (fun t => decide (now ≤ t))).length) := by
    have := congrArg List.length htimes
    simpa [List.length_take] using this
  refine ⟨htimes, ?_, ?_, ?_, ?_⟩
  · intro b hb
    have hmem : b.time ∈ (h.time.filter (fun t => decide (now ≤ t))).take 24 := by
      rw [← htimes]
      exact List.mem_map_of_mem HourBlock.time hb
    have hmem' := List.mem_of_mem_take hmem
    have := List.of_mem_filter hmem'
    simpa using this
  · omega
  · intro hlt
    omega
  · intro hsorted
    rw [htimes]
    exact ((hsorted.filter _).sublist (List.take_sublist _ _))

/-- Witness for C1 at a concrete three-entry series and `now = 2`, with both
conditional parts discharged. -/
theorem C1_witness :
    (hourlyBlocks hourlySmall 2).map HourBlock.time
        = (hourlySmall.time.filter (fun t => decide ((2 : Int) ≤ t))).take 24 ∧
    List.Sorted (· ≤ ·) hourlySmall.time ∧
    List.Sorted (· ≤ ·) ((hourlyBlocks hourlySmall 2).map HourBlock.time) ∧
    (hourlyBlocks hourlySmall 2).length < 24 ∧
    (hourlySmall.time.filter (fun t => decide ((2 : Int) ≤ t))).length < 24 :=
  ⟨(C1_hourly_projection hourlySmall 2).1,
   by decide,
   (C1_hourly_projection hourlySmall 2).2.2.2.2 (by decide),
   by decide,
   (C1_hourly_projection hourlySmall 2).2.2.2.1 (by decide)⟩

/-- C2: the daily projection returns the first `min 5 length` entries of the
series, each with the per-field values read off the parallel arrays at the
same index, in the original order. -/
theorem C2_daily_projection (d : DailyRaw) :
    (dailyGroups d).length = min 5 d.time.length ∧
    (∀ i : Nat, i < min 5 d.time.length →
      ∃ date, d.time.get? i = some date ∧
        (dailyGroups d).get? i = some
          { date := date,
            min := d.temperature_2m_min.get? i,
            max := d.temperature_2m_max.get? i,
            sunrise := d.sunrise.get? i,
            sunset := d.sunset.get? i,
            wmo := d.weather_code.get? i }) := by
  constructor
  · unfold dailyGroups
    by_cases h0 : d.time.length = 0
    · rw [if_pos h0, h0]
      simp
    · rw [if_neg h0]
      simp [List.length_take]
  · intro i hi
    have hi5 : i < 5 := lt_of_lt_of_le hi (min_le_left _ _)
    have hit : i < d.time.length := lt_of_lt_of_le hi (min_le_right _ _)
    refine ⟨d.time.get ⟨i, hit⟩, List.get?_eq_get hit, ?_⟩
    unfold dailyGroups
    rw [if_neg (by omega)]
    rw [List.get?_map, List.get?_take hi5, List.get?_enum, List.get?_eq_get hit]
    rfl

/-- Witness for C2 at a concrete two-entry daily series and index 1. -/
theorem C2_witness :
    (dailyGroups dailySmall).length = min 5 dailySmall.time.length ∧
    (1 : Nat) < min 5 dailySmall.time.length ∧
    (∃ date, dailySmall.time.get? 1 = some date ∧
      (dailyGroups dailySmall).get? 1 = some
        { date := date,
          min := dailySmall.temperature_2m_min.get? 1,
          max := dailySmall.temperature_2m_max.get? 1,
          sunrise := dailySmall.sunrise.get? 1,
          sunset := dailySmall.sunset.get? 1,
          wmo := dailySmall.weather_code.get? 1 }) :=
  ⟨(C2_daily_projection dailySmall).1, by decide,
   (C2_daily_projection dailySmall).2 1 (by decide)⟩

/-- Recording a tag that is not in the list keeps the whole list. -/
lemma record_not_mem (t : String) (l : List String) (h : t ∉ l) :
    record t l = (t :: l).take 8 := by
  unfold record
  have hf : l.filter (fun x => decide (x ≠ t)) = l :=
    List.filter_eq_self.mpr fun x hx => decide_eq_true fun hxe => h (hxe ▸ hx)
  rw [hf]

/-- On a duplicate-free list, the filter of `record` removes exactly the old
occurrence of the tag. -/
lemma filter_ne_of_nodup (t : String) :
    ∀ (l : List String), l.Nodup → l.filter (fun x => decide (x ≠ t)) = l.erase t
  | [], _ => rfl
  | a :: l, hnd => by
    rcases List.nodup_cons.mp hnd with ⟨ha, hl⟩
    by_cases hat : a = t
    · subst hat
      rw [List.filter_cons]
      have hd : (decide (a ≠ a)) = false := by simp
      rw [hd]
      simp only [Bool.false_eq_true, if_false]
      rw [List.erase_cons_head]
      exact List.filter_eq_self.mpr fun x hx => decide_eq_true fun hxe => ha (hxe ▸ hx)
    · rw [List.filter_cons]
      have hd : (decide (a ≠ t)) = true := by simp [hat]
      rw [hd]
      simp only [if_true]
      rw [List.erase_cons_tail (by simp [hat]), filter_ne_of_nodup t l hl]

/-- Folding `record` over a duplicate-free list of tags from the empty history
keeps the eight most recent tags, most-recent-first. -/
lemma record_foldl (ts : List String) :
    ts.Nodup → ts.foldl (fun acc t => record t acc) [] = ts.reverse.take 8 := by
  induction ts using List.reverseRecOn with
  | nil => intro _; rfl
  | append_singleton ts t ih =>
    intro hnd
    have hts : ts.Nodup := hnd.sublist (List.sublist_append_left ts [t])
    have hmem : t ∉ ts := fun hm =>
      ((List.nodup_append.mp hnd).2.2 hm (List.mem_singleton.mpr rfl)).elim
    have hmem' : t ∉ ts.reverse.take 8 := fun hm =>
      hmem (List.mem_reverse.mp (List.mem_of_mem_take hm))
    rw [List.foldl_append, List.foldl_cons, List.foldl_nil, ih hts,
      record_not_mem t _ hmem', List.reverse_append]
    simp only [List.reverse_cons, List.reverse_nil, List.nil_append,
      List.singleton_append]
    have h87 : ((ts.reverse.take 8).take 7) = ts.reverse.take 7 := by
      rw [List.take_take]
      norm_num
    calc (t :: ts.reverse.take 8).take 8
        = t :: (ts.reverse.take 8).take 7 := rfl
      _ = t :: ts.reverse.take 7 := by rw [h87]
      _ = (t :: ts.reverse).take 8 := rfl

/-- C3: on a duplicate-free history, `record` moves the tag to the front
(removing the old occurrence) or inserts it at the front, then truncates to
the first 8 entries; recording the same tag twice from the empty history
leaves exactly that tag; recording nine pairwise-distinct tags leaves the
last eight inserted, most-recent-first. -/
theorem C3_record_history (h : List String) (tag : String) (hnd : h.Nodup)
    (t1 t2 t3 t4 t5 t6 t7 t8 t9 : String)
    (hdist : ([t1, t2, t3, t4, t5, t6, t7, t8, t9] : List String).Nodup) :
    (record tag h).head? = some tag ∧
    record tag h = (tag :: h.erase tag).take 8 ∧
    record tag (record tag []) = [tag] ∧
    record t9 (record t8 (record t7 (record t6 (record t5 (record t4
      (record t3 (record t2 (record t1 [])))))))) =
      [t9, t8, t7, t6, t5, t4, t3, t2] := by
  refine ⟨rfl, ?_, ?_, ?_⟩
  · unfold record
    rw [filter_ne_of_nodup tag h hnd]
  · have h1 : record tag [] = [tag] := rfl
    rw [h1]
    unfold record
    have h2 : ([tag] : List String).filter (fun x => decide (x ≠ tag)) = [] := by
      simp
    rw [h2]
    rfl
  · have hch : record t9 (record t8 (record t7 (record t6 (record t5 (record t4
        (record t3 (record t2 (record t1 [])))))))) =
        List.foldl (fun acc t => record t acc) []
          [t1, t2, t3, t4, t5, t6, t7, t8, t9] := rfl
    rw [hch, record_foldl _ hdist]
    rfl

/-- Witness for C3 at concrete tags. -/
theorem C3_witness :
    (record ("y") ["x"]).head? = some ("y") ∧
    record ("y") ["x"] = (("y") :: (["x"] : List String).erase ("y")).take 8 ∧
    record ("y") (record ("y") []) = [("y")] ∧
    record ("a9") (record ("a8") (record ("a7") (record ("a6") (record ("a5")
      (record ("a4") (record ("a3") (record ("a2") (record ("a1") [])))))))) =
      ["a9", "a8", "a7", "a6", "a5", "a4", "a3", "a2"] :=
  C3_record_history ["x"] ("y") (by decide)
    ("a1") ("a2") ("a3") ("a4") ("a5") ("a6") ("a7") ("a8") ("a9") (by decide)

/-- C4, as stated, is false: the initial load performs no truncation or
deduplication, so a well-formed persisted blob that parses to the list
`["a", "a"]` is loaded verbatim and the loaded state already violates the
no-duplicates invariant. -/
theorem C4_counterexample :
    ¬ histInv (loadHistory (some (Except.ok ["a", "a"]))) := by
  decide

/-- C4 (amended): the invariant (length at most 8, no duplicate tags) holds in
every history state the application itself reaches — loads of a missing or
corrupt blob degrade to the empty list, loads of a blob written back by a
previous reachable session keep it, and every `record` step preserves it. A
load of an externally tampered, well-formed blob is not covered. -/
theorem C4_history_invariant (h : List String) (hr : HistReachable h) :
    h.length ≤ 8 ∧ h.Nodup := by
  induction hr with
  | loadMissing => exact ⟨by simp [loadHistory], by simp [loadHistory]⟩
  | loadCorrupt => exact ⟨by simp [loadHistory], by simp [loadHistory]⟩
  | loadSaved _ ih =>
    refine ⟨?_, ?_⟩
    · simp only [loadHistory, persistedBlob, List.length_take]
      omega
    · simp only [loadHistory, persistedBlob]
      exact ih.2.sublist (List.take_sublist _ _)
  | searchRecord tag _ ih =>
    rename_i h' _
    refine ⟨?_, ?_⟩
    · simp only [record, List.length_take]
      omega
    · have hfil : (h'.filter (fun x => decide (x ≠ tag))).Nodup :=
        ih.2.filter _
      have hmem : tag ∉ h'.filter (fun x => decide (x ≠ tag)) := fun hm => by
        have := List.of_mem_filter hm
        simp at this
      have : (tag :: h'.filter (fun x => decide (x ≠ tag))).Nodup :=
        List.nodup_cons.mpr ⟨hmem, hfil⟩
      exact this.sublist (List.take_sublist _ _)

/-- Witness for C4: one load-then-record run of the store. -/
theorem C4_witness :
    (record ("a") (loadHistory none)).length ≤ 8 ∧
    (record ("a") (loadHistory none)).Nodup :=
  C4_history_invariant _
    (HistReachable.searchRecord ("a") HistReachable.loadMissing)

/-- C5: toggling units with no coordinates set issues no fetch; with
coordinates set it issues exactly one forecast fetch whose unit parameters
are those of the flipped system, where metric maps to Celsius and
metres-per-second (`"ms"`), imperial to Fahrenheit and miles-per-hour. -/
theorem C5_toggle_units (s : AppState) (fr : Option ForecastData) :
    (s.coords = none → (toggleUnitsStep s fr).2 = []) ∧
    (∀ c : Coords, s.coords = some c →
      (toggleUnitsStep s fr).2 =
        [Request.forecast c.lat c.lon (unitParams (toggleUnits s.units)).1
          (unitParams (toggleUnits s.units)).2]) ∧
    unitParams Units.metric = (("celsius"), ("ms")) ∧
    unitParams Units.imperial = (("fahrenheit"), ("mph")) ∧
    toggleUnits Units.metric = Units.imperial ∧
    toggleUnits Units.imperial = Units.metric := by
  refine ⟨?_, ?_, rfl, rfl, rfl, rfl⟩
  · intro hc
    simp [toggleUnitsStep, unitsEffect, hc]
  · intro c hc
    cases fr <;> simp [toggleUnitsStep, unitsEffect, hc, mkForecastReq]

/-- Witness for C5: a metric state with coordinates fetches once with
imperial parameters; the blank state fetches nothing. -/
theorem C5_witness :
    (toggleUnitsStep stateWithCoords none).2 =
      [Request.forecast coordsEx.lat coordsEx.lon
        (unitParams (toggleUnits stateWithCoords.units)).1
        (unitParams (toggleUnits stateWithCoords.units)).2] ∧
    (toggleUnitsStep blankState none).2 = [] :=
  ⟨(C5_toggle_units stateWithCoords none).2.1 coordsEx rfl,
   (C5_toggle_units blankState none).1 rfl⟩

/-- C6: forward resolution uses only the first geocoding match; the display
name is `name, region` exactly when a non-empty region is present and `name`
otherwise; the country falls back from country code to country full name to
the empty string; and the Hanoi response yields the place
`{name: "Hanoi", country: "VN"}` and a forecast fetch for (21.03, 105.85). -/
theorem C6_forward_resolution :
    (∀ (r : GeoResult) (rest : List GeoResult),
      resolveCity (some ⟨r :: rest⟩) =
        Except.ok ((⟨r.latitude, r.longitude⟩ : Coords),
          (⟨displayNameOf r, countryOf r⟩ : Place))) ∧
    (∀ (r : GeoResult) (st : String), r.admin1 = some st → st ≠ "" →
      displayNameOf r = r.name ++ ", " ++ st) ∧
    (∀ r : GeoResult, r.admin1 = none → displayNameOf r = r.name) ∧
    (∀ (r : GeoResult) (cc : String), r.country_code = some cc → cc ≠ "" →
      countryOf r = cc) ∧
    (∀ (r : GeoResult) (co : String),
      (r.country_code = none ∨ r.country_code = some ("")) →
      r.country = some co → co ≠ "" → countryOf r = co) ∧
    (∀ r : GeoResult,
      (r.country_code = none ∨ r.country_code = some ("")) →
      (r.country = none ∨ r.country = some ("")) → countryOf r = "") ∧
    hanoiLat = 2103 / 100 ∧ hanoiLon = 10585 / 100 ∧
    (onSearchCity hanoiState (some hanoiResp) (some fdEx)).1.place =
      some (PlaceVal.named ⟨"Hanoi", "VN"⟩) ∧
    (onSearchCity hanoiState (some hanoiResp) (some fdEx)).1.coords =
      some ⟨hanoiLat, hanoiLon⟩ ∧
    (onSearchCity hanoiState (some hanoiResp) (some fdEx)).2 =
      [Request.geocode ("Hanoi"),
       Request.forecast hanoiLat hanoiLon ("celsius") ("ms")] := by
  refine ⟨fun r rest => rfl, ?_, ?_, ?_, ?_, ?_, ?_, ?_, ?_, ?_, ?_⟩
  · intro r st h1 h2
    simp [displayNameOf, truthy, h1, h2]
  · intro r h1
    simp [displayNameOf, truthy, h1]
  · intro r cc h1 h2
    simp [countryOf, truthy, h1, h2]
  · intro r co h1 h2 h3
    rcases h1 with h1 | h1 <;> simp [countryOf, truthy, h1, h2, h3]
  · intro r h1 h2
    rcases h1 with h1 | h1 <;> rcases h2 with h2 | h2 <;>
      simp [countryOf, truthy, h1, h2]
  · rw [show hanoiLat = Rat.mk' 2103 100 (by decide) (by decide) from rfl,
      Rat.mk'_eq_divInt, Rat.divInt_eq_div]
    norm_num
  · rw [show hanoiLon = Rat.mk' 2117 20 (by decide) (by decide) from rfl,
      Rat.mk'_eq_divInt, Rat.divInt_eq_div]
    norm_num
  · decide
  · decide
  · decide

/-- Witness for C6 at a match with region and full country name only. -/
theorem C6_witness :
    resolveCity (some ⟨[regionResult]⟩) =
      Except.ok ((⟨1, 2⟩ : Coords),
        (⟨displayNameOf regionResult, countryOf regionResult⟩ : Place)) ∧
    displayNameOf regionResult = regionResult.name ++ ", " ++ ("ThuaThien") ∧
    countryOf regionResult = ("Vietnam") :=
  ⟨C6_forward_resolution.1 regionResult [],
   C6_forward_resolution.2.1 regionResult ("ThuaThien") rfl (by decide),
   C6_forward_resolution.2.2.2.2.1 regionResult ("Vietnam") (Or.inl rfl) rfl
     (by decide)⟩

/-- C7: a failed reverse-geocoding call or one with zero results yields `null`
rather than a thrown failure, and the GPS flow still completes: the forecast
and current conditions are set from the fetch, the controller does not enter
the error state, and the place name stays unset. -/
theorem C7_reverse_failure (rev : Option GeoData) (s : AppState) (lat lon : ℚ)
    (fd : ForecastData)
    (hrev : rev = none ∨ rev = some ⟨[]⟩)
    (hplace : s.place = none) :
    reverseGeo rev = none ∧
    (onUseMyLocation s (GeoPos.ok lat lon) rev (some fd)).1.error = "" ∧
    (onUseMyLocation s (GeoPos.ok lat lon) rev (some fd)).1.loading = false ∧
    (onUseMyLocation s (GeoPos.ok lat lon) rev (some fd)).1.forecast = some fd ∧
    (onUseMyLocation s (GeoPos.ok lat lon) rev (some fd)).1.current
        = some fd.current ∧
    (onUseMyLocation s (GeoPos.ok lat lon) rev (some fd)).1.place = none := by
  have hr : reverseGeo rev = none := by
    rcases hrev with h | h <;> subst h <;> rfl
  refine ⟨hr, ?_, ?_, ?_, ?_, ?_⟩ <;> simp [onUseMyLocation, hr, hplace]

/-- Witness for C7: the GPS flow from the blank state with an empty reverse
response. -/
theorem C7_witness :
    reverseGeo none = none ∧
    (onUseMyLocation blankState (GeoPos.ok 1 2) none (some fdEx)).1.error = "" ∧
    (onUseMyLocation blankState (GeoPos.ok 1 2) none (some fdEx)).1.loading
        = false ∧
    (onUseMyLocation blankState (GeoPos.ok 1 2) none (some fdEx)).1.forecast
        = some fdEx ∧
    (onUseMyLocation blankState (GeoPos.ok 1 2) none (some fdEx)).1.current
        = some fdEx.current ∧
    (onUseMyLocation blankState (GeoPos.ok 1 2) none (some fdEx)).1.place
        = none :=
  C7_reverse_failure none blankState 1 2 fdEx (Or.inl rfl) rfl

/-- C8: if forward resolution succeeded but the forecast fetch returns a
non-success status, the search flow ends in the error state with the
fetch-failure message and replaces neither the current-conditions snapshot
nor the forecast the hourly/daily slices derive from (nor the history). -/
theorem C8_fetch_error (s : AppState) (geo : Option GeoData) (c : Coords)
    (p : Place)
    (hq : ¬ jsTrim s.cityInput = "")
    (hres : resolveCity geo = Except.ok (c, p)) :
    (onSearchCity s geo none).1.error = failedFetchMsg ∧
    (onSearchCity s geo none).1.loading = false ∧
    (onSearchCity s geo none).1.current = s.current ∧
    (onSearchCity s geo none).1.forecast = s.forecast ∧
    (onSearchCity s geo none).1.history = s.history := by
  refine ⟨?_, ?_, ?_, ?_, ?_⟩ <;> simp [onSearchCity, hq, hres]

/-- Witness for C8: a failed fetch after resolving Hanoi leaves the previously
displayed data in place. -/
theorem C8_witness :
    (onSearchCity priorState (some hanoiResp) none).1.error = failedFetchMsg ∧
    (onSearchCity priorState (some hanoiResp) none).1.loading = false ∧
    (onSearchCity priorState (some hanoiResp) none).1.current
        = priorState.current ∧
    (onSearchCity priorState (some hanoiResp) none).1.forecast
        = priorState.forecast ∧
    (onSearchCity priorState (some hanoiResp) none).1.history
        = priorState.history :=
  C8_fetch_error priorState (some hanoiResp) ⟨hanoiLat, hanoiLon⟩
    ⟨"Hanoi", "VN"⟩ (by decide) rfl

/-- C9, as stated, is false: submitting a whitespace-only query is not a
complete no-op, because `setError("")` runs before the empty-input guard, so
a previously displayed error message is cleared. -/
theorem C9_counterexample :
    (onSearchCity staleErrorState none none).1.error ≠ staleErrorState.error := by
  decide

/-- C9 (amended): submitting a query that is empty after trimming triggers no
network call, produces no message, and leaves all controller state unchanged
except that any previously displayed error message is cleared. -/
theorem C9_empty_query (s : AppState) (geo : Option GeoData)
    (fr : Option ForecastData)
    (hq : jsTrim s.cityInput = "") :
    onSearchCity s geo fr = ({ s with error := "" }, []) := by
  simp [onSearchCity, hq]

/-- Witness for C9 at the whitespace-query state. -/
theorem C9_witness :
    onSearchCity staleErrorState none none
      = ({ staleErrorState with error := "" }, []) :=
  C9_empty_query staleErrorState none none (by decide)

/-- C10: once the displayed place is set it is never reset to `null` by any
controller step, and a GPS flow whose reverse geocode yields `null` leaves
the previously displayed place untouched. -/
theorem C10_place_never_cleared :
    (∀ (s : AppState) (a : Action), s.place.isSome →
      ((step s a).1.place).isSome) ∧
    (∀ (s : AppState) (lat lon : ℚ) (rev : Option GeoData)
      (fr : Option ForecastData), reverseGeo rev = none →
      (step s (Action.useLoc (GeoPos.ok lat lon) rev fr)).1.place = s.place) := by
  constructor
  · intro s a hp
    cases a with
    | search g f =>
      simp only [step, onSearchCity]
      split
      · simpa using hp
      · split
        · simpa using hp
        · split <;> simp
    | useLoc pos rev f =>
      cases pos with
      | denied => simpa [step, onUseMyLocation] using hp
      | ok lat lon =>
        simp only [step, onUseMyLocation]
        split <;> split <;> simp_all
    | toggleU f =>
      simp only [step, toggleUnitsStep, unitsEffect]
      split
      · simpa using hp
      · split <;> simpa using hp
    | editInput q => simpa [step] using hp
  · intro s lat lon rev fr hrev
    cases fr <;> simp [step, onUseMyLocation, hrev]

/-- Witness for C10: an already-displayed place survives an input edit and a
GPS flow with a failed reverse geocode. -/
theorem C10_witness :
    ((step placedState (Action.editInput ("q"))).1.place).isSome ∧
    (step placedState (Action.useLoc (GeoPos.ok 1 2) none none)).1.place
      = placedState.place :=
  ⟨C10_place_never_cleared.1 placedState (Action.editInput ("q")) (by decide),
   C10_place_never_cleared.2 placedState 1 2 none none rfl⟩

end WeatherApp
